import Mathlib

/-!
Shallow embedding of the VM test-harness core of azure-linux-image-tools
(src/test/vmtests/vmtests): firmware resolution, libvirt domain XML
construction, VM lifecycle helpers, console stream logging and fixture
teardown, together with theorems settling the specification claims.

Pure functions of the Python source become Lean functions; stateful code
becomes explicit state passing; fallible code returns Except.  External
collaborators (the libvirt API, the filesystem, real time) enter as
explicit parameters or small behavioural models, noted at each definition.
-/

namespace VmTests

/-- Value of a successful computation, dropping the error; what a caller
observes when a Python function returns normally. -/
def exceptOk? {ε α : Type} : Except ε α → Option α
  | .ok a => some a
  | .error _ => none

/-! ### Python string and bytes primitives used by the source -/

/-- Python substring test `needle in hay` on `str`, over explicit char
lists: some contiguous run of `hay` equals `needle`. -/
def listContainsSub (needle : List Char) : List Char → Bool
  | [] => needle.isEmpty
  | c :: t => needle.isPrefixOf (c :: t) || listContainsSub needle t

/-- Python `needle in hay` for strings. -/
def strContains (hay needle : String) : Bool :=
  listContainsSub needle.data hay.data

/-- Python `str.lower()`.  `Char.toLower` lowercases exactly the ASCII
range, which covers every comparison the source performs on lowered
strings (the literal ".iso"). -/
def pyLower (s : String) : String := ⟨s.data.map Char.toLower⟩

/-- Python `str.endswith`, over explicit char lists. -/
def strEndsWith (s t : String) : Bool := t.data.isSuffixOf s.data

/-- Index of the last occurrence of a character in a list, as Python
`str.rfind` (with -1 rendered as `none`). -/
def rfindIdx (c : Char) : List Char → Option Nat
  | [] => none
  | a :: t =>
    match rfindIdx c t with
    | some i => some (i + 1)
    | none => if a == c then some 0 else none

/-- Embedding of `posixpath.splitext` (the `os.path.splitext` used on
Linux): split off the extension at the last dot, provided the dot lies
after the last path separator and at least one character of the final
component before that dot is not itself a dot (so dotfiles such as
".iso" carry no extension). -/
def splitext (p : String) : String × String :=
  let l := p.data
  match rfindIdx '.' l with
  | none => (p, "")
  | some d =>
    match rfindIdx '/' l with
    | none =>
      if (l.take d).any (fun ch => !(ch == '.')) then
        (⟨l.take d⟩, ⟨l.drop d⟩)
      else (p, "")
    | some s =>
      if s < d then
        if ((l.drop (s + 1)).take (d - (s + 1))).any (fun ch => !(ch == '.')) then
          (⟨l.take d⟩, ⟨l.drop d⟩)
        else (p, "")
      else (p, "")

/-- Characters treated as whitespace by Python `str.rstrip()`. -/
def pyIsSpace (c : Char) : Bool :=
  let n := c.toNat
  (decide (0x09 ≤ n) && decide (n ≤ 0x0D))
    || (decide (0x1C ≤ n) && decide (n ≤ 0x1F))
    || n == 0x20 || n == 0x85 || n == 0xA0 || n == 0x1680
    || (decide (0x2000 ≤ n) && decide (n ≤ 0x200A))
    || n == 0x2028 || n == 0x2029 || n == 0x202F || n == 0x205F || n == 0x3000

/-- Python `str.rstrip()`: drop trailing whitespace. -/
def pyRStrip (l : List Char) : List Char :=
  (l.reverse.dropWhile pyIsSpace).reverse

/-! ### UTF-8 decoding with replacement, as `bytes.decode("utf-8", errors="replace")` -/

/-- Unicode replacement character U+FFFD. -/
def replacementChar : Char := Char.ofNat 0xFFFD

/-- Admissible range of the first continuation byte for a given lead byte
(the ranges that exclude overlong encodings, surrogates and code points
above U+10FFFF). -/
def utf8Cont1Range (b : Nat) : Nat × Nat :=
  if b == 0xE0 then (0xA0, 0xBF)
  else if b == 0xED then (0x80, 0x9F)
  else if b == 0xF0 then (0x90, 0xBF)
  else if b == 0xF4 then (0x80, 0x8F)
  else (0x80, 0xBF)

/-- Fuel-driven embedding of `bytes.decode("utf-8", errors="replace")`:
well-formed sequences decode to their code point; each maximal subpart
of an ill-formed subsequence is replaced by one U+FFFD, resuming at the
first byte that broke the sequence (the policy CPython implements).
Every recursive call consumes at least one byte of the input while the
fuel drops by exactly one, so fuel `l.length + 1` can never run out; the
fuel merely makes the recursion structural. -/
def utf8DecodeReplaceFuel : Nat → List Nat → List Char
  | 0, _ => []
  | _ + 1, [] => []
  | fuel + 1, b :: rest =>
    if b < 0x80 then
      Char.ofNat b :: utf8DecodeReplaceFuel fuel rest
    else if 0xC2 ≤ b ∧ b ≤ 0xDF then
      match rest with
      | [] => [replacementChar]
      | c1 :: r1 =>
        if 0x80 ≤ c1 ∧ c1 ≤ 0xBF then
          Char.ofNat ((b - 0xC0) * 64 + (c1 - 0x80)) :: utf8DecodeReplaceFuel fuel r1
        else replacementChar :: utf8DecodeReplaceFuel fuel rest
    else if 0xE0 ≤ b ∧ b ≤ 0xEF then
      match rest with
      | [] => [replacementChar]
      | c1 :: r1 =>
        if (utf8Cont1Range b).1 ≤ c1 ∧ c1 ≤ (utf8Cont1Range b).2 then
          match r1 with
          | [] => [replacementChar]
          | c2 :: r2 =>
            if 0x80 ≤ c2 ∧ c2 ≤ 0xBF then
              Char.ofNat ((b - 0xE0) * 4096 + (c1 - 0x80) * 64 + (c2 - 0x80))
                :: utf8DecodeReplaceFuel fuel r2
            else replacementChar :: utf8DecodeReplaceFuel fuel r1
        else replacementChar :: utf8DecodeReplaceFuel fuel rest
    else if 0xF0 ≤ b ∧ b ≤ 0xF4 then
      match rest with
      | [] => [replacementChar]
      | c1 :: r1 =>
        if (utf8Cont1Range b).1 ≤ c1 ∧ c1 ≤ (utf8Cont1Range b).2 then
          match r1 with
          | [] => [replacementChar]
          | c2 :: r2 =>
            if 0x80 ≤ c2 ∧ c2 ≤ 0xBF then
              match r2 with
              | [] => [replacementChar]
              | c3 :: r3 =>
                if 0x80 ≤ c3 ∧ c3 ≤ 0xBF then
                  Char.ofNat
                      ((b - 0xF0) * 262144 + (c1 - 0x80) * 4096
                        + (c2 - 0x80) * 64 + (c3 - 0x80))
                    :: utf8DecodeReplaceFuel fuel r3
                else replacementChar :: utf8DecodeReplaceFuel fuel r2
            else replacementChar :: utf8DecodeReplaceFuel fuel r1
        else replacementChar :: utf8DecodeReplaceFuel fuel rest
    else
      replacementChar :: utf8DecodeReplaceFuel fuel rest

/-- Embedding of `bytes.decode("utf-8", errors="replace")`. -/
def utf8DecodeReplace (l : List Nat) : List Char :=
  utf8DecodeReplaceFuel (l.length + 1) l

/-! ### Glob matching, as `fnmatch.fnmatch` on POSIX -/

/-- Scan for the closing bracket of a glob character class; return the
content before it and the remainder after it. -/
def scanRBracket : List Char → Option (List Char × List Char)
  | [] => none
  | c :: t =>
    if c == ']' then some ([], t)
    else
      match scanRBracket t with
      | some (content, r) => some (c :: content, r)
      | none => none

/-- Interpret the text following an opening bracket of a glob character
class, as `fnmatch.translate` does: a leading `!` negates, a `]` right
after it is literal content, and the next `]` closes the class.  Returns
(negated, content, rest-of-pattern) or `none` when there is no closing
bracket, in which case the `[` is treated as a literal character. -/
def classSplit : List Char → Option (Bool × List Char × List Char)
  | '!' :: ']' :: t2 => (scanRBracket t2).map (fun p => (true, ']' :: p.1, p.2))
  | '!' :: t => (scanRBracket t).map (fun p => (true, p.1, p.2))
  | ']' :: t2 => (scanRBracket t2).map (fun p => (false, ']' :: p.1, p.2))
  | t => (scanRBracket t).map (fun p => (false, p.1, p.2))

/-- Match one character against the items of a glob character class:
`a-b` denotes an inclusive code point range, other characters match
literally, and a trailing `-` is literal. -/
def classItemsMatch : List Char → Char → Bool
  | [], _ => false
  | a :: '-' :: b :: rest, c =>
    (decide (a.toNat ≤ c.toNat) && decide (c.toNat ≤ b.toNat))
      || classItemsMatch rest c
  | a :: rest, c => a == c || classItemsMatch rest c

/-- Apply the optional negation of a glob character class. -/
def classMatch (negated : Bool) (content : List Char) (c : Char) : Bool :=
  if negated then !(classItemsMatch content c) else classItemsMatch content c

/-- Fuel-driven core of the glob matcher of `fnmatch.fnmatch`: `*` matches
any run, `?` any one character, `[...]` a character class.  Every
recursive call strictly decreases `pat.length + name.length`, so fuel
`pat.length + name.length + 1` can never run out; the fuel merely makes
the recursion structural. -/
def matchGlobFuel : Nat → List Char → List Char → Bool
  | 0, _, _ => false
  | _ + 1, [], name => name.isEmpty
  | fuel + 1, '*' :: ps, name =>
    matchGlobFuel fuel ps name
      || (match name with
          | [] => false
          | _ :: nt => matchGlobFuel fuel ('*' :: ps) nt)
  | fuel + 1, '?' :: ps, name =>
    (match name with
     | [] => false
     | _ :: nt => matchGlobFuel fuel ps nt)
  | fuel + 1, '[' :: ps, name =>
    (match classSplit ps with
     | some (neg, content, rest) =>
       (match name with
        | [] => false
        | c :: nt => classMatch neg content c && matchGlobFuel fuel rest nt)
     | none =>
       (match name with
        | [] => false
        | c :: nt => (c == '[') && matchGlobFuel fuel ps nt))
  | fuel + 1, p :: ps, name =>
    (match name with
     | [] => false
     | c :: nt => (c == p) && matchGlobFuel fuel ps nt)

/-- Embedding of `fnmatch.fnmatch(name, pattern)` on POSIX, where
`os.path.normcase` is the identity. -/
def fnmatch (name pat : String) : Bool :=
  matchGlobFuel (pat.data.length + name.data.length + 1) pat.data name.data

/-! ### Firmware resolver: `_get_libvirt_firmware_config` (libvirt_utils.py) -/

/-- The first element of the `targets` array of a firmware descriptor;
the source only ever reads `f["targets"][0]`. -/
structure FirmwareTarget where
  architecture : String
  machines : List String
deriving DecidableEq

/-- One firmware descriptor JSON object from /usr/share/qemu/firmware.
`mappingExecutableFilename` is `some fn` exactly when
`"executable" in f["mapping"]` holds with filename `fn`. -/
structure FirmwareConfig where
  targets0 : FirmwareTarget
  features : List String
  mappingExecutableFilename : Option String
deriving DecidableEq

/-- Python-level failure of the resolver. -/
inductive PyFailure where
  | nameError (missing : String)
  | exception (msg : String)
deriving DecidableEq

/-- The exclusion filter of the resolver (lines 69-78 of
libvirt_utils.py): the mapping must carry an executable whose filename
contains none of "inteltdx", "amdsev", "qcow2". -/
def execFilenameOk (mef : Option String) : Bool :=
  match mef with
  | some filename =>
    !(strContains filename "inteltdx") && !(strContains filename "amdsev")
      && !(strContains filename "qcow2")
  | none => false

/-- Embedding of `_get_libvirt_firmware_config` from the filtering stage
on: the architecture and full machine type resolved via
`getDomainCapabilities`, and the descriptor objects loaded from the
firmware directory, enter as parameters (they are environment I/O).
When every descriptor is filtered out, the `raise` evaluates an f-string
that references the undefined name `machine_type` (the parameter is
called `machine_model`), so Python raises `NameError` before the
intended `Exception` message is ever built. -/
def resolveFirmware (arch full_machine_type : String) (secure_boot : Bool)
    (firmware_configs : List FirmwareConfig) : Except PyFailure FirmwareConfig :=
  let byArch := firmware_configs.filter
    (fun f => f.targets0.architecture == arch)
  let byMachine := byArch.filter
    (fun f => f.targets0.machines.any
      (fun target_machine => fnmatch full_machine_type target_machine))
  let byExcl := byMachine.filter
    (fun f => execFilenameOk f.mappingExecutableFilename)
  let bySecureBoot :=
    match secure_boot with
    | true =>
      byExcl.filter
        (fun (f : FirmwareConfig) =>
          f.features.contains "secure-boot" && f.features.contains "enrolled-keys")
    | false =>
      byExcl.filter (fun (f : FirmwareConfig) => !(f.features.contains "secure-boot"))
  match bySecureBoot.head? with
  | some firmware_config => .ok firmware_config
  | none => .error (.nameError "machine_type")

/-- The selection predicate exactly as claim C1 words it: architecture
equality, some machine pattern glob-matches, an executable filename free
of the three excluded tags, and the secure-boot feature condition. -/
def firmwareClaimMatch (arch full_machine_type : String) (secure_boot : Bool)
    (f : FirmwareConfig) : Bool :=
  (f.targets0.architecture == arch)
    && (f.targets0.machines.any
      (fun target_machine => fnmatch full_machine_type target_machine))
    && execFilenameOk f.mappingExecutableFilename
    && (match secure_boot with
        | true => f.features.contains "secure-boot" && f.features.contains "enrolled-keys"
        | false => !(f.features.contains "secure-boot"))

/-- The single descriptor of the scenario of claim C2: an aarch64
descriptor matching machine "virt-6.2" that does not support secure
boot. -/
def nonSbAarch64Virt : FirmwareConfig where
  targets0 := { architecture := "aarch64", machines := ["virt*"] }
  features := ["verbose-dynamic"]
  mappingExecutableFilename := some "/usr/share/AAVMF/AAVMF_CODE.fd"

/-! ### Domain XML builder: `create_libvirt_domain_xml` (libvirt_utils.py) -/

/-- A VM specification, as the `VmSpec` class of libvirt_utils.py. -/
structure VmSpec where
  name : String
  memory_mib : Nat
  core_count : Nat
  os_disk_path : String
  boot_type : String
  secure_boot : Bool
deriving DecidableEq

/-- An XML element as built through `xml.etree.ElementTree`: tag,
attributes in insertion order, optional text, children in insertion
order. -/
inductive Xml where
  | elem (tag : String) (attribs : List (String × String)) (text : Option String)
      (children : List Xml)

def Xml.tag : Xml → String
  | .elem t _ _ _ => t

def Xml.attribs : Xml → List (String × String)
  | .elem _ a _ _ => a

def Xml.text : Xml → Option String
  | .elem _ _ tx _ => tx

def Xml.children : Xml → List Xml
  | .elem _ _ _ c => c

/-- Attribute lookup on an element. -/
def Xml.attr (x : Xml) (key : String) : Option String :=
  (x.attribs.find? (fun p => p.1 == key)).map (fun p => p.2)

/-- First child with the given tag. -/
def findChild (x : Xml) (t : String) : Option Xml :=
  x.children.find? (fun c => c.tag == t)

/-- All children with the given tag. -/
def childrenNamed (x : Xml) (t : String) : List Xml :=
  x.children.filter (fun c => c.tag == t)

/-- Python `dict.get(key, 0)` over an insertion-ordered association
list, the model of the `next_disk_indexes` dictionary. -/
def dictGet (m : List (String × Nat)) (key : String) : Nat :=
  match m.find? (fun p => p.1 == key) with
  | some p => p.2
  | none => 0

/-- Python `d[key] = v`: update in place, else append. -/
def dictSet : List (String × Nat) → String → Nat → List (String × Nat)
  | [], key, v => [(key, v)]
  | p :: t, key, v => if p.1 == key then (key, v) :: t else p :: dictSet t key v

/-- Embedding of `_gen_disk_device_name`: per-prefix running counter;
for "vd"/"sd" the index maps to the letter suffix chr(ord("a") + index)
and only indexes 0..25 are supported (the `disk_index < 0` arm of the
source check is vacuous over Nat); other prefixes get a numeric suffix. -/
def gen_disk_device_name (pfx : String) (next_disk_indexes : List (String × Nat)) :
    Except String (String × List (String × Nat)) :=
  let disk_index := dictGet next_disk_indexes pfx
  let updated := dictSet next_disk_indexes pfx (disk_index + 1)
  if pfx == "vd" || pfx == "sd" then
    if disk_index > 25 then
      .error ("Unsupported disk index: " ++ toString disk_index ++ ".")
    else
      .ok (pfx.push (Char.ofNat (97 + disk_index)), updated)
  else
    .ok (pfx ++ toString disk_index, updated)

/-- The name produced by call number n (0-indexed) of
`_gen_disk_device_name` for a fixed prefix, threading the counter table
from a given start. -/
def nthDeviceNameFrom (pfx : String) : Nat → List (String × Nat) → Except String String
  | 0, m => (gen_disk_device_name pfx m).map Prod.fst
  | n + 1, m =>
    match gen_disk_device_name pfx m with
    | .ok (_, m2) => nthDeviceNameFrom pfx n m2
    | .error e => .error e

/-- The Nth generated device name (0-indexed) for a prefix, starting
from an empty counter table. -/
def nthDeviceName (pfx : String) (n : Nat) : Except String String :=
  nthDeviceNameFrom pfx n []

/-- Embedding of `_add_disk_xml`: builds the disk element and threads
the device-name counter table. -/
def add_disk_xml (file_path device_type image_type bus_type device_pfx : String)
    (read_only : Bool) (next_disk_indexes : List (String × Nat)) :
    Except String (Xml × List (String × Nat)) :=
  match gen_disk_device_name device_pfx next_disk_indexes with
  | .error e => .error e
  | .ok (device_name, updated) =>
    .ok (Xml.elem "disk" [("type", "file"), ("device", device_type)] none
      ([Xml.elem "driver" [("name", "qemu"), ("type", image_type)] none [],
        Xml.elem "target" [("dev", device_name), ("bus", bus_type)] none [],
        Xml.elem "source" [("file", file_path)] none []]
        ++ (if read_only then [Xml.elem "readonly" [] none []] else [])), updated)

/-- Embedding of `create_libvirt_domain_xml`, built exactly as the
source builds the tree: the commented-out call to the firmware resolver
is dead code, the loader path and `secure="no"` are hardcoded, and the
boot disk is chosen on the lowered `os.path.splitext` extension of the
OS disk path.  Each element carries the attributes and children it holds
once the function returns (the source sets some attributes after
creating the element).  The final `ET.tostring` serialization is
omitted: the claims are about the structure of the document. -/
def create_libvirt_domain_xml (vm_spec : VmSpec) (log_file : String) :
    Except String Xml :=
  let secure_boot_str := "no"
  let domain_type := "qemu"
  let machine_model := "virt-6.2"
  let name := Xml.elem "name" [] (some vm_spec.name) []
  let memory := Xml.elem "memory" [("unit", "MiB")] (some (toString vm_spec.memory_mib)) []
  let vcpu := Xml.elem "vcpu" [] (some (toString vm_spec.core_count)) []
  let os_type := Xml.elem "type" [("arch", "aarch64"), ("machine", machine_model)]
    (some "hvm") []
  let nvram :=
    if vm_spec.boot_type == "efi" then
      Xml.elem "nvram" [("template", "/usr/share/AAVMF/AAVMF_VARS.ms.fd")]
        (some "/home/cloudtest/prism_arm64_iso_VARS.fd") []
    else
      Xml.elem "nvram" [] none []
  let firmware_file := "/usr/share/AAVMF/AAVMF_CODE.ms.fd"
  let loader_list :=
    if vm_spec.boot_type == "efi" then
      [Xml.elem "loader"
        [("readonly", "yes"), ("secure", secure_boot_str), ("type", "pflash")]
        (some firmware_file) []]
    else []
  let features := Xml.elem "features" [] none
    [Xml.elem "acpi" [] none [], Xml.elem "gic" [("version", "2")] none []]
  let cpu := Xml.elem "cpu" [("mode", "custom"), ("match", "exact"), ("check", "none")]
    none [Xml.elem "model" [("fallback", "forbid")] (some "cortex-a57") []]
  let clock := Xml.elem "clock" [("offset", "utc")] none []
  let on_poweroff := Xml.elem "on_poweroff" [] (some "destroy") []
  let on_reboot := Xml.elem "on_reboot" [] (some "restart") []
  let on_crash := Xml.elem "on_crash" [] (some "destroy") []
  let emulator := Xml.elem "emulator" [] (some "/usr/bin/qemu-system-aarch64") []
  let controller_scsi := Xml.elem "controller"
    [("type", "scsi"), ("index", "0"), ("model", "virtio-scsi")] none []
  let serial := Xml.elem "serial" [("type", "file")] none
    [Xml.elem "source" [("path", log_file)] none [],
     Xml.elem "target" [("type", "system-serial"), ("port", "0")] none
       [Xml.elem "model" [("name", "pl011")] none []]]
  let console := Xml.elem "console" [("type", "file")] none
    [Xml.elem "source" [("path", log_file)] none [],
     Xml.elem "target" [("type", "serial"), ("port", "0")] none []]
  let video := Xml.elem "video" [] none [Xml.elem "model" [("type", "vga")] none []]
  let network_interface := Xml.elem "interface" [("type", "network")] none
    [Xml.elem "source" [("network", "default")] none [],
     Xml.elem "model" [("type", "virtio")] none []]
  let next_disk_indexes : List (String × Nat) := []
  let os_disk_ext := (splitext vm_spec.os_disk_path).2
  let assemble := fun (boot_dev : String) (disk : Xml) =>
    let os_boot := Xml.elem "boot" [("dev", boot_dev)] none []
    let os_tag := Xml.elem "os" [] none ([os_type, nvram, os_boot] ++ loader_list)
    let devices := Xml.elem "devices" [] none
      ([emulator, controller_scsi, serial, console, video, network_interface] ++ [disk])
    Xml.elem "domain" [("type", domain_type)] none
      [name, memory, vcpu, os_tag, features, cpu, clock, on_poweroff, on_reboot,
        on_crash, devices]
  if !(pyLower os_disk_ext == ".iso") then
    match add_disk_xml vm_spec.os_disk_path "disk" "qcow2" "virtio" "vd" false
        next_disk_indexes with
    | .error e => .error e
    | .ok (disk, _) => .ok (assemble "hd" disk)
  else
    match add_disk_xml vm_spec.os_disk_path "cdrom" "raw" "scsi" "sd" true
        next_disk_indexes with
    | .error e => .error e
    | .ok (disk, _) => .ok (assemble "cdrom" disk)

/-- The disk elements of the devices section of a domain document. -/
def domainDisks (dom : Xml) : List Xml :=
  match findChild dom "devices" with
  | some devices => childrenNamed devices "disk"
  | none => []

/-- The `dev` attribute of the os/boot element. -/
def domainBootDev (dom : Xml) : Option String :=
  match findChild dom "os" with
  | some os_tag =>
    match findChild os_tag "boot" with
    | some b => b.attr "dev"
    | none => none
  | none => none

/-- The loader elements of the os section. -/
def domainLoaders (dom : Xml) : List Xml :=
  match findChild dom "os" with
  | some os_tag => childrenNamed os_tag "loader"
  | none => []

/-- Does a disk element carry a `readonly` child? -/
def diskReadOnly (disk : Xml) : Bool :=
  !(childrenNamed disk "readonly").isEmpty

/-- The bus of the target of a disk element. -/
def diskBus (disk : Xml) : Option String :=
  match findChild disk "target" with
  | some t => t.attr "bus"
  | none => none

/-- Claim C3 exactly as stated, as a decidable check at one input: the
built domain has exactly one boot disk, and classification follows the
literal test "the path ends in .iso": ending in ".iso" gives a read-only
cdrom device with boot dev "cdrom"; any other extension gives a
read-write virtio disk without a readonly element and boot dev "hd". -/
def diskClaimLiteral (vm_spec : VmSpec) (log_file : String) : Bool :=
  match create_libvirt_domain_xml vm_spec log_file with
  | .error _ => false
  | .ok dom =>
    decide ((domainDisks dom).length = 1)
      && (if strEndsWith vm_spec.os_disk_path ".iso" then
            decide (domainBootDev dom = some "cdrom")
              && (domainDisks dom).all
                (fun d => (d.attr "device" == some "cdrom") && diskReadOnly d)
          else
            decide (domainBootDev dom = some "hd")
              && (domainDisks dom).all
                (fun d => (d.attr "device" == some "disk")
                  && (diskBus d == some "virtio") && !(diskReadOnly d)))

/-- Claim C5 at one input, exactly as stated in its refutable part: the
domain built for an efi spec carries a loader whose `secure` attribute
mirrors `secure_boot` ("yes" when true, "no" when false). -/
def loaderSecureMirrors (vm_spec : VmSpec) (log_file : String) : Bool :=
  match create_libvirt_domain_xml vm_spec log_file with
  | .error _ => false
  | .ok dom =>
    !(domainLoaders dom).isEmpty
      && (domainLoaders dom).all
        (fun l => l.attr "secure"
          == some (if vm_spec.secure_boot then "yes" else "no"))

/-- The concrete spec refuting the literal reading of claim C3: an OS
disk path with an upper-case ".ISO" extension. -/
def specUpperIso : VmSpec where
  name := "test-vm"
  memory_mib := 4096
  core_count := 4
  os_disk_path := "image.ISO"
  boot_type := "efi"
  secure_boot := false

/-- A spec with an efi boot type and secure boot requested, refuting
claim C5. -/
def specEfiSecure : VmSpec where
  name := "test-vm"
  memory_mib := 4096
  core_count := 4
  os_disk_path := "disk.qcow2"
  boot_type := "efi"
  secure_boot := true

/-- A plain qcow2 efi spec used as witness input. -/
def specQcow : VmSpec where
  name := "test-vm"
  memory_mib := 4096
  core_count := 4
  os_disk_path := "disk.qcow2"
  boot_type := "efi"
  secure_boot := false

/-- The domain built for `specQcow`. -/
def qcowDom : Xml :=
  match create_libvirt_domain_xml specQcow "console.log" with
  | .ok d => d
  | .error _ => Xml.elem "" [] none []

/-- The domain built for `specEfiSecure`. -/
def efiSecureDom : Xml :=
  match create_libvirt_domain_xml specEfiSecure "console.log" with
  | .ok d => d
  | .error _ => Xml.elem "" [] none []

/-! ### VM lifecycle: `LibvirtVm` (libvirt_vm.py) -/

/-- Embedding of `LibvirtVm.try_get_vm_ip_address`: the lease table
snapshot is the interface list (name, addresses) that
`interfaceAddresses` returns; the source takes the first interface,
returns None when its address list is empty, and otherwise returns the
LAST address of the list. -/
def try_get_vm_ip_address (interfaces : List (String × List String)) : Option String :=
  match interfaces with
  | [] => none
  | (_, addrs) :: _ =>
    if addrs.length < 1 then none else addrs.getLast?

/-- The address list of the first interface of a lease-table snapshot. -/
def firstInterfaceAddrs (interfaces : List (String × List String)) : List String :=
  match interfaces with
  | [] => []
  | (_, addrs) :: _ => addrs

/-- The message of the exception `get_vm_ip_address` raises on timeout. -/
def no_ip_msg (vm_name : String) : String :=
  "No IP addresses found for '" ++ vm_name ++ "'. OS might have failed to boot."

/-- Embedding of the polling loop of `LibvirtVm.get_vm_ip_address`, with
real time discretized to one tick per loop iteration (the loop sleeps
one second between polls): `polls t` is the lease table observed by the
poll at tick t, and the loop raises when an unsuccessful poll happens at
a tick past the timeout. -/
def vm_ip_loop (vm_name : String) (polls : Nat → List (String × List String))
    (timeout : Nat) (t : Nat) : Except String String :=
  match try_get_vm_ip_address (polls t) with
  | some addr => .ok addr
  | none =>
    if h : timeout < t then .error (no_ip_msg vm_name)
    else vm_ip_loop vm_name polls timeout (t + 1)
termination_by timeout + 1 - t
decreasing_by omega

/-- Embedding of `LibvirtVm.get_vm_ip_address`: poll from tick 0. -/
def get_vm_ip_address (vm_name : String)
    (polls : Nat → List (String × List String)) (timeout : Nat) :
    Except String String :=
  vm_ip_loop vm_name polls timeout 0

/-- A poll trace whose lease table is always empty. -/
def pollsNever : Nat → List (String × List String) := fun _ => []

/-- A poll trace where tick 2 observes one interface holding two
addresses. -/
def pollsAtTwo : Nat → List (String × List String) := fun t =>
  if t == 2 then [("vnet0", ["192.168.122.15", "192.168.122.99"])] else []

/-- State of a libvirt domain as the close path observes it.  A model of
the external hypervisor: `destroy` fails with a libvirtError when the
domain is not running; `undefineFlags` fails with a libvirtError when it
is no longer defined. -/
structure DomainState where
  running : Bool
  defined : Bool
deriving DecidableEq

/-- A hypervisor request issued by the close path. -/
inductive HvOp where
  | destroy
  | undefine
deriving DecidableEq

/-- Model of `virDomain.destroy` (stop the domain). -/
def virDomainDestroy (s : DomainState) : Except String DomainState :=
  if s.running then .ok { s with running := false }
  else .error "Requested operation is not valid: domain is not running"

/-- Model of `virDomain.undefineFlags` with the managed-save, snapshot,
nvram and checkpoint flags. -/
def virDomainUndefineFlags (s : DomainState) : Except String DomainState :=
  if s.defined then .ok { s with defined := false }
  else .error "Domain not found"

/-- Result of one `LibvirtVm.close` call: final domain state, the
hypervisor requests issued, and the warnings logged for swallowed
libvirtErrors.  Both hypervisor calls are wrapped in
`try/except libvirt.libvirtError` in the source and the modelled
operations raise only libvirtError, so close always returns normally. -/
structure CloseResult where
  state : DomainState
  ops : List HvOp
  warnings : List String
deriving DecidableEq

/-- Embedding of `LibvirtVm.close`: best-effort destroy, then
best-effort undefine; each failure is logged as a warning and
swallowed. -/
def LibvirtVm.close (s : DomainState) : CloseResult :=
  let destroyed :=
    match virDomainDestroy s with
    | .ok s2 => (s2, ([] : List String))
    | .error ex => (s, ["VM stop failed. " ++ ex])
  let undefined_res :=
    match virDomainUndefineFlags destroyed.1 with
    | .ok s3 => (s3, ([] : List String))
    | .error ex => (destroyed.1, ["VM delete failed. " ++ ex])
  { state := undefined_res.1
    ops := [HvOp.destroy, HvOp.undefine]
    warnings := destroyed.2 ++ undefined_res.2 }

/-- A domain that is running and defined, as after define + start. -/
def initialDomain : DomainState where
  running := true
  defined := true

/-! ### Fixture teardown: the `close_list` fixture (conftest.py) -/

/-- Outcome of the teardown phase of the `close_list` fixture: which
resource indexes had close() attempted (in order), the exception
messages collected, what propagates to the test framework, and the
value the generator returns.  The source builds
`ExceptionGroup("failed to close resources", exceptions)` but `return`s
it from the generator instead of raising it, so nothing ever propagates
to the caller. -/
structure TeardownOutcome where
  attempted : List Nat
  collected : List String
  raisedToCaller : Option (String × List String)
  returnedValue : Option (String × List String)
deriving DecidableEq

/-- Embedding of the code after the `yield` of the `close_list` fixture:
resources are modelled by the outcome of their close() call; when the
environment is not being kept, the list is walked in reverse, every
close is attempted, each failure is caught and collected, and the final
ExceptionGroup is returned — not raised. -/
def close_list_teardown (keep_environment : Bool)
    (vm_delete_list : List (Except String Unit)) : TeardownOutcome :=
  if keep_environment then
    { attempted := [], collected := [], raisedToCaller := none, returnedValue := none }
  else
    let collected := vm_delete_list.reverse.filterMap
      (fun r => match r with | .ok _ => none | .error e => some e)
    { attempted := (List.range vm_delete_list.length).reverse
      collected := collected
      raisedToCaller := none
      returnedValue :=
        if collected.length > 0 then some ("failed to close resources", collected)
        else none }

/-! ### Console stream logger: `LibvirtConsoleLogger` (libvirt_console_logger.py) -/

/-- One character in the single-character alternative of the ANSI escape
pattern of the source, `[@-Z\\-_]`: code points 0x40-0x5A and 0x5C-0x5F. -/
def ansiSingleChar (c : Char) : Bool :=
  (decide (0x40 ≤ c.toNat) && decide (c.toNat ≤ 0x5A))
    || (decide (0x5C ≤ c.toNat) && decide (c.toNat ≤ 0x5F))

/-- A CSI parameter byte, `[0-?]`. -/
def ansiParamByte (c : Char) : Bool :=
  decide (0x30 ≤ c.toNat) && decide (c.toNat ≤ 0x3F)

/-- A CSI intermediate byte: code points 0x20 to 0x2F. -/
def ansiInterByte (c : Char) : Bool :=
  decide (0x20 ≤ c.toNat) && decide (c.toNat ≤ 0x2F)

/-- A CSI final byte, `[@-~]`. -/
def ansiFinalByte (c : Char) : Bool :=
  decide (0x40 ≤ c.toNat) && decide (c.toNat ≤ 0x7E)

/-- Try to match the tail of the ANSI escape pattern (everything after
the ESC) at the head of the list; on success return the remainder.  The
two alternatives of the pattern are disjoint and the starred classes are
disjoint from each other and from the final byte, so the backtracking
regex is equivalent to this greedy scan. -/
def ansiMatchTail (l : List Char) : Option (List Char) :=
  match l with
  | [] => none
  | d :: r =>
    if ansiSingleChar d then some r
    else if d == '[' then
      match (r.dropWhile ansiParamByte).dropWhile ansiInterByte with
      | f :: r3 => if ansiFinalByte f then some r3 else none
      | [] => none
    else none

/-- Fuel-driven removal of every leftmost non-overlapping match of the
ANSI escape pattern, as `ANSI_ESCAPE.sub("", line)`.  Every recursive
call consumes at least one character while the fuel drops by one, so
fuel `l.length + 1` can never run out. -/
def ansiStripFuel : Nat → List Char → List Char
  | 0, _ => []
  | _ + 1, [] => []
  | fuel + 1, c :: rest =>
    if c.toNat == 0x1B then
      match ansiMatchTail rest with
      | some r => ansiStripFuel fuel r
      | none => c :: ansiStripFuel fuel rest
    else c :: ansiStripFuel fuel rest

/-- `ANSI_ESCAPE.sub("", line)` over char lists. -/
def ansiStrip (l : List Char) : List Char := ansiStripFuel (l.length + 1) l

/-- State of the console logger observed by the stream event handler:
bytes written to the log file, the line-reassembly buffer, and the
debug records emitted so far. -/
structure LoggerState where
  logFile : List Nat
  buffer : List Nat
  records : List String
deriving DecidableEq

/-- A logger state with nothing written, buffered or emitted. -/
def emptyLoggerState : LoggerState where
  logFile := []
  buffer := []
  records := []

/-- Embedding of `LibvirtConsoleLogger._write_logging`: decode the
buffered bytes as UTF-8 with replacement, strip trailing whitespace,
remove ANSI escape sequences, emit the result as one debug record and
clear the buffer. -/
def writeLoggingLine (buf : List Nat) : String :=
  ⟨ansiStrip (pyRStrip (utf8DecodeReplace buf))⟩

/-- Embedding of the handling of one nonempty data chunk in the
readable branch of `LibvirtConsoleLogger._stream_event`: the chunk is
written verbatim to the log file; `data.find(b"\n")` locates the FIRST
newline — bytes before it join the buffer, which is then flushed as one
record, and the bytes after it (which may contain further newlines) are
retained in the buffer; a chunk with no newline is wholly retained. -/
def stream_chunk (st : LoggerState) (data : List Nat) : LoggerState :=
  let st1 := { st with logFile := st.logFile ++ data }
  match data.findIdx? (fun b => b == 10) with
  | none => { st1 with buffer := st1.buffer ++ data }
  | some newline_index =>
    let flushed := st1.buffer ++ data.take newline_index
    { st1 with
        buffer := data.drop (newline_index + 1)
        records := st1.records ++ [writeLoggingLine flushed] }

/-- Index of the LAST newline of a chunk, used to state claim C7
exactly as written. -/
def lastNewlineIdx? (data : List Nat) : Option Nat :=
  match data.reverse.findIdx? (fun b => b == 10) with
  | some j => some (data.length - 1 - j)
  | none => none

/-- Claim C7 exactly as stated, as a decidable check at one input:
verbatim write to the log file; on a chunk with a newline, buffered
content up to the LAST newline is emitted as one record and only content
after that last newline is retained; a chunk without newline is wholly
retained. -/
def streamChunkClaimLiteral (st : LoggerState) (data : List Nat) : Bool :=
  let st2 := stream_chunk st data
  (st2.logFile == st.logFile ++ data)
    && (match lastNewlineIdx? data with
        | some i =>
          (st2.records == st.records ++ [writeLoggingLine (st.buffer ++ data.take i)])
            && (st2.buffer == data.drop (i + 1))
        | none =>
          (st2.buffer == st.buffer ++ data) && (st2.records == st.records))

/-- State of a console logger session as the close routine observes
it. -/
structure LoggerCloseState where
  streamCompleted : Bool
  logFileOpen : Bool
  callbackAdded : Bool
deriving DecidableEq

/-- Which steps of the close body raise, modelling arbitrary failures of
the buffer flush, the log-file close, the callback removal and the
stream abort/finish. -/
structure CloseFaults where
  writeLoggingRaises : Bool
  fileCloseRaises : Bool
  removeCallbackRaises : Bool
  streamCloseRaises : Bool
deriving DecidableEq

/-- Embedding of `LibvirtConsoleLogger._close_stream`: an early return
when the completion event is already set; otherwise a try block running
buffer flush, log-file close, callback removal (only when a callback was
added) and stream abort/finish in order, stopping at the first raising
step, with a `finally` that always sets the completion event before any
exception escapes. -/
def close_stream (st : LoggerCloseState) (abort : Bool) (faults : CloseFaults) :
    LoggerCloseState × Option String :=
  if st.streamCompleted then (st, none)
  else
    let tryBody : LoggerCloseState × Option String :=
      if faults.writeLoggingRaises then (st, some "write logging raised")
      else if faults.fileCloseRaises then (st, some "log file close raised")
      else
        let stClosed := { st with logFileOpen := false }
        if stClosed.callbackAdded && faults.removeCallbackRaises then
          (stClosed, some "eventRemoveCallback raised")
        else
          let stCb := { stClosed with callbackAdded := false }
          if faults.streamCloseRaises then
            (stCb, some (if abort then "stream abort raised" else "stream finish raised"))
          else (stCb, none)
    ({ tryBody.1 with streamCompleted := true }, tryBody.2)

/-- Embedding of `Event.wait` as observed by `close` and
`wait_for_close`: the waiting caller is unblocked exactly when the
completion event is set. -/
def event_wait_unblocked (st : LoggerCloseState) : Bool := st.streamCompleted

/-! ### Helper lemmas for the filter pipeline -/

theorem head?_filter_eq_find? {α : Type} (p : α → Bool) (l : List α) :
    (l.filter p).head? = l.find? p := by
  induction l with
  | nil => rfl
  | cons a t ih =>
    by_cases h : p a
    · simp [List.filter_cons, List.find?, h]
    · simp only [Bool.not_eq_true] at h
      simp [List.filter_cons, List.find?, h, ih]

/-- Unfolding of the filter pipeline on a cons cell: the head descriptor
is selected exactly when it satisfies all four filter conditions, and is
transparent to the selection otherwise. -/
theorem resolveFirmware_cons (arch full_machine_type : String) (secure_boot : Bool)
    (f : FirmwareConfig) (t : List FirmwareConfig) :
    resolveFirmware arch full_machine_type secure_boot (f :: t)
      = if firmwareClaimMatch arch full_machine_type secure_boot f then Except.ok f
        else resolveFirmware arch full_machine_type secure_boot t := by
  cases secure_boot with
  | false =>
    by_cases h1 : (f.targets0.architecture == arch) = true
    · by_cases h2 : (f.targets0.machines.any
          (fun target_machine => fnmatch full_machine_type target_machine)) = true
      · by_cases h3 : execFilenameOk f.mappingExecutableFilename = true
        · by_cases h4 : ("secure-boot" : String) ∈ f.features
          · simp [resolveFirmware, firmwareClaimMatch, List.filter_cons,
              head?_filter_eq_find?, h1, h2, h3, h4]
          · simp [resolveFirmware, firmwareClaimMatch, List.filter_cons,
              head?_filter_eq_find?, h1, h2, h3, h4]
        · simp [resolveFirmware, firmwareClaimMatch, List.filter_cons,
            head?_filter_eq_find?, h1, h2, h3]
      · simp [resolveFirmware, firmwareClaimMatch, List.filter_cons,
          head?_filter_eq_find?, h1, h2]
    · simp [resolveFirmware, firmwareClaimMatch, List.filter_cons,
        head?_filter_eq_find?, h1]
  | true =>
    by_cases h1 : (f.targets0.architecture == arch) = true
    · by_cases h2 : (f.targets0.machines.any
          (fun target_machine => fnmatch full_machine_type target_machine)) = true
      · by_cases h3 : execFilenameOk f.mappingExecutableFilename = true
        · by_cases h4a : ("secure-boot" : String) ∈ f.features
          · by_cases h4b : ("enrolled-keys" : String) ∈ f.features
            · simp [resolveFirmware, firmwareClaimMatch, List.filter_cons,
                head?_filter_eq_find?, h1, h2, h3, h4a, h4b]
            · simp [resolveFirmware, firmwareClaimMatch, List.filter_cons,
                head?_filter_eq_find?, h1, h2, h3, h4a, h4b]
          · simp [resolveFirmware, firmwareClaimMatch, List.filter_cons,
              head?_filter_eq_find?, h1, h2, h3, h4a]
        · simp [resolveFirmware, firmwareClaimMatch, List.filter_cons,
            head?_filter_eq_find?, h1, h2, h3]
      · simp [resolveFirmware, firmwareClaimMatch, List.filter_cons,
          head?_filter_eq_find?, h1, h2]
    · simp [resolveFirmware, firmwareClaimMatch, List.filter_cons,
        head?_filter_eq_find?, h1]

/-- C1: for every firmware descriptor snapshot and every request, the
resolver returns exactly the first descriptor (in enumeration order)
that satisfies the conjunction of the architecture, machine-pattern,
excluded-tag and secure-boot conditions, and returns no descriptor when
none satisfies it. -/
theorem resolveFirmware_first_match (arch full_machine_type : String)
    (secure_boot : Bool) (configs : List FirmwareConfig) :
    exceptOk? (resolveFirmware arch full_machine_type secure_boot configs)
      = configs.find? (firmwareClaimMatch arch full_machine_type secure_boot) := by
  induction configs with
  | nil => cases secure_boot <;> rfl
  | cons f t ih =>
    rw [resolveFirmware_cons]
    by_cases h : firmwareClaimMatch arch full_machine_type secure_boot f = true
    · simp [List.find?_cons, h, exceptOk?]
    · simp only [Bool.not_eq_true] at h
      simp [List.find?_cons, h, ih]

/-- C2: over a snapshot containing only a non-secure-boot aarch64
"virt-6.2" descriptor, a secure-boot request leaves the filter pipeline
empty; the code then fails with a NameError for the undefined variable
`machine_type` — not with the intended not-found exception carrying the
requested machine type and secure-boot flag. -/
theorem resolveFirmware_empty_raises_nameError :
    resolveFirmware "aarch64" "virt-6.2" true [nonSbAarch64Virt]
      = .error (.nameError "machine_type") := by
  rfl

/-- C4: the Nth generated device name (0-indexed) for prefix "vd"
(likewise "sd") is the prefix followed by chr(ord("a") + N) for every
N in 0..25, and requesting device 26 for these prefixes yields an error
instead of a name. -/
theorem gen_disk_device_name_nth (n : Nat) (h : n ≤ 25) :
    nthDeviceName "vd" n = .ok ("vd".push (Char.ofNat (97 + n)))
      ∧ nthDeviceName "sd" n = .ok ("sd".push (Char.ofNat (97 + n)))
      ∧ nthDeviceName "vd" 26 = .error "Unsupported disk index: 26."
      ∧ nthDeviceName "sd" 26 = .error "Unsupported disk index: 26." := by
  refine ⟨?_, ?_, by rfl, by rfl⟩
  · interval_cases n <;> rfl
  · interval_cases n <;> rfl

/-- Witness for C4 at N = 3: the fourth "vd" device is named "vdd". -/
theorem gen_disk_device_name_nth_witness :
    3 ≤ 25 ∧ nthDeviceName "vd" 3 = .ok ("vd".push (Char.ofNat (97 + 3))) :=
  ⟨by decide, (gen_disk_device_name_nth 3 (by decide)).1⟩

/-- C3 counterexample: the path "image.ISO" does not end in ".iso", so
the claim as stated demands the read-write virtio configuration, yet the
builder lowercases the extension before comparing and emits the
read-only cdrom configuration. -/
theorem diskClaimLiteral_counterexample :
    diskClaimLiteral specUpperIso "console.log" = false := by
  rfl

/-- C3 (amended): classification keys on the `os.path.splitext`
extension of the disk path compared case-insensitively: extension ".iso"
(in any case) gives the single read-only cdrom boot disk with boot dev
"cdrom"; any other extension gives the single read-write virtio boot
disk with no readonly element and boot dev "hd". -/
theorem domain_boot_disk_classification (vm_spec : VmSpec) (log_file : String)
    (dom : Xml) (h : create_libvirt_domain_xml vm_spec log_file = .ok dom) :
    (domainDisks dom).length = 1
      ∧ (pyLower (splitext vm_spec.os_disk_path).2 = ".iso" →
          domainBootDev dom = some "cdrom"
            ∧ (domainDisks dom).all
                (fun d => (d.attr "device" == some "cdrom") && diskReadOnly d)
                = true)
      ∧ (pyLower (splitext vm_spec.os_disk_path).2 ≠ ".iso" →
          domainBootDev dom = some "hd"
            ∧ (domainDisks dom).all
                (fun d => (d.attr "device" == some "disk")
                  && (diskBus d == some "virtio") && !(diskReadOnly d))
                = true) := by
  by_cases hboot : (vm_spec.boot_type == "efi") = true
  · by_cases hiso : pyLower (splitext vm_spec.os_disk_path).2 = ".iso"
    · simp [create_libvirt_domain_xml, add_disk_xml, gen_disk_device_name, dictGet, dictSet, hiso, hboot] at h
      subst h
      exact ⟨by rfl, fun _ => ⟨by rfl, by rfl⟩, fun hc => absurd hiso hc⟩
    · simp [create_libvirt_domain_xml, add_disk_xml, gen_disk_device_name, dictGet, dictSet, hiso, hboot] at h
      subst h
      exact ⟨by rfl, fun hc => absurd hc hiso, fun _ => ⟨by rfl, by rfl⟩⟩
  · by_cases hiso : pyLower (splitext vm_spec.os_disk_path).2 = ".iso"
    · simp [create_libvirt_domain_xml, add_disk_xml, gen_disk_device_name, dictGet, dictSet, hiso, hboot] at h
      subst h
      exact ⟨by rfl, fun _ => ⟨by rfl, by rfl⟩, fun hc => absurd hiso hc⟩
    · simp [create_libvirt_domain_xml, add_disk_xml, gen_disk_device_name, dictGet, dictSet, hiso, hboot] at h
      subst h
      exact ⟨by rfl, fun hc => absurd hc hiso, fun _ => ⟨by rfl, by rfl⟩⟩

/-- Witness for C3 applied at a qcow2 path. -/
theorem domain_boot_disk_classification_witness :
    create_libvirt_domain_xml specQcow "console.log" = .ok qcowDom
      ∧ (domainDisks qcowDom).length = 1
      ∧ domainBootDev qcowDom = some "hd" :=
  ⟨rfl,
    (domain_boot_disk_classification specQcow "console.log" qcowDom rfl).1,
    ((domain_boot_disk_classification specQcow "console.log" qcowDom rfl).2.2
      (by decide)).1⟩

/-- C5 counterexample: for an efi spec with secure boot requested, the
loader attribute `secure` is "no", not the mirrored "yes" — the builder
hardcodes `secure_boot_str = "no"` and never consults the resolver. -/
theorem loaderSecureMirrors_counterexample :
    loaderSecureMirrors specEfiSecure "console.log" = false := by
  rfl

/-- C5 (amended): for every VmSpec with boot type "efi", the built
domain carries exactly one loader element, read-only, of type pflash,
pointing at the fixed path /usr/share/AAVMF/AAVMF_CODE.ms.fd, and its
`secure` attribute is "no" regardless of `secure_boot` (the builder
hardcodes the value and never calls the firmware resolver). -/
theorem domain_loader_fixed (vm_spec : VmSpec) (log_file : String) (dom : Xml)
    (hefi : vm_spec.boot_type = "efi")
    (h : create_libvirt_domain_xml vm_spec log_file = .ok dom) :
    domainLoaders dom
      = [Xml.elem "loader" [("readonly", "yes"), ("secure", "no"), ("type", "pflash")]
          (some "/usr/share/AAVMF/AAVMF_CODE.ms.fd") []] := by
  by_cases hiso : pyLower (splitext vm_spec.os_disk_path).2 = ".iso"
  · simp [create_libvirt_domain_xml, add_disk_xml, gen_disk_device_name, dictGet, dictSet, hiso, hefi] at h
    subst h
    rfl
  · simp [create_libvirt_domain_xml, add_disk_xml, gen_disk_device_name, dictGet, dictSet, hiso, hefi] at h
    subst h
    rfl

/-- Witness for C5 applied at `specEfiSecure`. -/
theorem domain_loader_fixed_witness :
    specEfiSecure.boot_type = "efi"
      ∧ create_libvirt_domain_xml specEfiSecure "console.log" = .ok efiSecureDom
      ∧ domainLoaders efiSecureDom
          = [Xml.elem "loader"
              [("readonly", "yes"), ("secure", "no"), ("type", "pflash")]
              (some "/usr/share/AAVMF/AAVMF_CODE.ms.fd") []] :=
  ⟨rfl, rfl, domain_loader_fixed specEfiSecure "console.log" efiSecureDom rfl rfl⟩

/-- The source computes `addrs[len(addrs) - 1]`, the last element of the
address list of the first interface. -/
theorem try_get_eq_getLast? (interfaces : List (String × List String)) :
    try_get_vm_ip_address interfaces = (firstInterfaceAddrs interfaces).getLast? := by
  match interfaces with
  | [] => rfl
  | (nm, addrs) :: rest =>
    cases addrs with
    | nil => rfl
    | cons a t =>
      show (if (a :: t).length < 1 then none else (a :: t).getLast?) = (a :: t).getLast?
      rw [if_neg (by simp)]

/-- When every poll in the window fails, the loop times out with the
message naming the VM. -/
theorem vm_ip_loop_all_none (vm_name : String)
    (polls : Nat → List (String × List String)) (timeout : Nat) :
    ∀ k t, timeout + 1 - t = k → t ≤ timeout + 1 →
      (∀ u, t ≤ u → u ≤ timeout + 1 → try_get_vm_ip_address (polls u) = none) →
      vm_ip_loop vm_name polls timeout t = .error (no_ip_msg vm_name) := by
  intro k
  induction k with
  | zero =>
    intro t hk ht hnone
    rw [vm_ip_loop]
    simp only [hnone t le_rfl ht]
    have hlt : timeout < t := by omega
    simp [hlt]
  | succ k ih =>
    intro t hk ht hnone
    rw [vm_ip_loop]
    simp only [hnone t le_rfl ht]
    have hnlt : ¬ timeout < t := by omega
    simp only [hnlt, dite_false]
    exact ih (t + 1) (by omega) (by omega)
      (fun u hu1 hu2 => hnone u (by omega) hu2)

/-- The loop returns the value of the first successful poll. -/
theorem vm_ip_loop_first_some (vm_name : String)
    (polls : Nat → List (String × List String)) (timeout : Nat) :
    ∀ k t t0 addr, t0 - t = k → t ≤ t0 → t0 ≤ timeout + 1 →
      (∀ u, u < t0 → try_get_vm_ip_address (polls u) = none) →
      try_get_vm_ip_address (polls t0) = some addr →
      vm_ip_loop vm_name polls timeout t = .ok addr := by
  intro k
  induction k with
  | zero =>
    intro t t0 addr hk hle hwin hnone hsome
    have heq : t = t0 := by omega
    subst heq
    rw [vm_ip_loop]
    simp [hsome]
  | succ k ih =>
    intro t t0 addr hk hle hwin hnone hsome
    have htlt : t < t0 := by omega
    rw [vm_ip_loop]
    simp only [hnone t htlt]
    have hnlt : ¬ timeout < t := by omega
    simp only [hnlt, dite_false]
    exact ih (t + 1) t0 addr (by omega) (by omega) hwin hnone hsome

/-- C6: under the discrete-tick model of the polling loop (one poll per
sleep interval), whenever the first successful poll observes a non-empty
address list on the first interface the call returns the last address of
that list, and when no poll in the window up to one tick past the
timeout observes an address, the call fails with the error message
carrying the VM name. -/
theorem get_vm_ip_address_spec (vm_name : String)
    (polls : Nat → List (String × List String)) (timeout : Nat) :
    ((∀ t, t ≤ timeout + 1 → try_get_vm_ip_address (polls t) = none) →
        get_vm_ip_address vm_name polls timeout = .error (no_ip_msg vm_name))
      ∧ (∀ t0 addr, t0 ≤ timeout + 1 →
          (∀ u, u < t0 → try_get_vm_ip_address (polls u) = none) →
          (firstInterfaceAddrs (polls t0)).getLast? = some addr →
          get_vm_ip_address vm_name polls timeout = .ok addr) := by
  constructor
  · intro hnone
    exact vm_ip_loop_all_none vm_name polls timeout (timeout + 1) 0 (by omega)
      (by omega) (fun u hu1 hu2 => hnone u hu2)
  · intro t0 addr ht0 hnone hlast
    have hsome : try_get_vm_ip_address (polls t0) = some addr := by
      rw [try_get_eq_getLast?]
      exact hlast
    exact vm_ip_loop_first_some vm_name polls timeout t0 0 t0 addr (by omega)
      (by omega) ht0 hnone hsome

/-- Witness for C6: a trace that never yields an address times out with
the VM name in the message, and a trace that yields two addresses at
tick 2 returns the last of them. -/
theorem get_vm_ip_address_spec_witness :
    get_vm_ip_address "vm1" pollsNever 3 = .error (no_ip_msg "vm1")
      ∧ get_vm_ip_address "vm1" pollsAtTwo 3 = .ok "192.168.122.99" :=
  ⟨(get_vm_ip_address_spec "vm1" pollsNever 3).1 (fun t ht => rfl),
    (get_vm_ip_address_spec "vm1" pollsAtTwo 3).2 2 "192.168.122.99" (by omega)
      (by decide) (by rfl)⟩

/-- C8 counterexample: starting from a running, defined domain, the
second close call still issues the destroy and undefine requests to the
hypervisor — the claim that it performs no hypervisor operations is
false at this input. -/
theorem close_second_call_counterexample :
    (LibvirtVm.close (LibvirtVm.close initialDomain).state).ops
        = [HvOp.destroy, HvOp.undefine]
      ∧ (LibvirtVm.close (LibvirtVm.close initialDomain).state).ops ≠ [] := by
  exact ⟨rfl, by decide⟩

/-- C8 (amended): for every starting domain state, a second close
re-issues both best-effort hypervisor requests; both fail with a
libvirtError that is caught and logged (two warnings), the domain state
is unchanged, and the call returns normally instead of raising. -/
theorem close_second_call_amended (s : DomainState) :
    (LibvirtVm.close (LibvirtVm.close s).state).ops = [HvOp.destroy, HvOp.undefine]
      ∧ (LibvirtVm.close (LibvirtVm.close s).state).warnings.length = 2
      ∧ (LibvirtVm.close (LibvirtVm.close s).state).state = (LibvirtVm.close s).state := by
  obtain ⟨r, d⟩ := s
  cases r <;> cases d <;> exact ⟨rfl, rfl, rfl⟩

/-- C9: with one resource whose close raises, the teardown attempts the
close and collects the exception, but the ExceptionGroup is returned
from the generator instead of raised — nothing propagates to the test
framework, so the collected failure is dropped; moreover, for every
resource list, every close is attempted (in reverse order) and nothing
is ever raised to the caller. -/
theorem close_list_teardown_drops_failures :
    close_list_teardown false [Except.error "close failed"]
        = { attempted := [0], collected := ["close failed"],
            raisedToCaller := none,
            returnedValue := some ("failed to close resources", ["close failed"]) }
      ∧ ∀ resources : List (Except String Unit),
          (close_list_teardown false resources).attempted
              = (List.range resources.length).reverse
            ∧ (close_list_teardown false resources).raisedToCaller = none :=
  ⟨rfl, fun _resources => ⟨rfl, rfl⟩⟩

/-- C7 counterexample: for the chunk "a\nb\nc" arriving at an empty
logger, the source flushes only up to the FIRST newline ("a" is emitted,
"b\nc" is retained), while the claim demands a flush up to the LAST
newline ("a\nb" emitted, "c" retained) — the claim as stated is false at
this input. -/
theorem streamChunkClaim_counterexample :
    streamChunkClaimLiteral emptyLoggerState [97, 10, 98, 10, 99] = false := by
  rfl

/-- C7 (amended): each chunk is appended verbatim to the log file; a
chunk without a newline is wholly retained in the buffer; a chunk whose
FIRST newline sits at index i causes the buffer plus the bytes before i
to be emitted as one debug record (decoded, trailing whitespace trimmed,
ANSI escapes stripped) while the bytes after i — which may contain
further newlines — become the new buffer. -/
theorem stream_chunk_spec (st : LoggerState) (data : List Nat) :
    (stream_chunk st data).logFile = st.logFile ++ data
      ∧ (data.findIdx? (fun b => b == 10) = none →
          (stream_chunk st data).buffer = st.buffer ++ data
            ∧ (stream_chunk st data).records = st.records)
      ∧ (∀ i, data.findIdx? (fun b => b == 10) = some i →
          (stream_chunk st data).records
              = st.records ++ [writeLoggingLine (st.buffer ++ data.take i)]
            ∧ (stream_chunk st data).buffer = data.drop (i + 1)) := by
  refine ⟨?_, ?_, ?_⟩
  · cases h : data.findIdx? (fun b => b == 10) <;> simp [stream_chunk, h]
  · intro h
    simp [stream_chunk, h]
  · intro i h
    simp [stream_chunk, h]

/-- Witness for C7 at the chunk "a\nb\nc" on an empty logger: the first
newline is at index 1, "a" is flushed, "b\nc" is retained. -/
theorem stream_chunk_spec_witness :
    (stream_chunk emptyLoggerState [97, 10, 98, 10, 99]).records
        = emptyLoggerState.records
            ++ [writeLoggingLine
              (emptyLoggerState.buffer ++ ([97, 10, 98, 10, 99] : List Nat).take 1)]
      ∧ (stream_chunk emptyLoggerState [97, 10, 98, 10, 99]).buffer
          = ([97, 10, 98, 10, 99] : List Nat).drop (1 + 1) :=
  (stream_chunk_spec emptyLoggerState [97, 10, 98, 10, 99]).2.2 1 (by rfl)

/-- C10: whatever the prior session state and whichever close steps
raise, the close routine leaves the completion event set, so a caller
blocked in close() or wait_for_close() is unblocked. -/
theorem close_stream_always_signals (st : LoggerCloseState) (abort : Bool)
    (faults : CloseFaults) :
    (close_stream st abort faults).1.streamCompleted = true
      ∧ event_wait_unblocked (close_stream st abort faults).1 = true := by
  obtain ⟨sc, lf, cb⟩ := st
  obtain ⟨f1, f2, f3, f4⟩ := faults
  cases sc <;> cases lf <;> cases cb <;> cases f1 <;> cases f2 <;> cases f3 <;>
    cases f4 <;> cases abort <;> exact ⟨rfl, rfl⟩

end VmTests
